import Mathlib

/-!
Shallow embedding of the engine-lifecycle NIF wrapper in
src/lib/native/clamav_nif/src/clamav_nif.c.

The wrapper's own control flow (argument checks, handle-state checks,
result-shape construction, resource release) is translated directly from
the C source.  Calls into the external libclamav library are modelled by
passing their outcomes as explicit parameters (return code, virus-name
pointer, signatures added, fmap-open success) and by recording each native
invocation as an event in a trace, so that "the native scan is never
invoked" and "the fmap is closed exactly once" become statements about the
trace.
-/

namespace ExClamav

/-! ### Constants from clamav.h (the external header used by clamav_nif.c) -/

def CL_SUCCESS : Int := 0

def CL_CLEAN : Int := 0

def CL_VIRUS : Int := 1

def CL_SCAN_GENERAL_ALLMATCHES : Nat := 0x1

def CL_SCAN_GENERAL_COLLECT_METADATA : Nat := 0x2

def CL_SCAN_GENERAL_HEURISTICS : Nat := 0x4

def CL_SCAN_GENERAL_HEURISTIC_PRECEDENCE : Nat := 0x8

def CL_SCAN_GENERAL_UNPRIVILEGED : Nat := 0x10

def CL_SCAN_PARSE_ARCHIVE : Nat := 0x1

def CL_SCAN_PARSE_MAIL : Nat := 0x40

def CL_SCAN_PARSE_OLE2 : Nat := 0x80

def CL_SCAN_HEURISTIC_BROKEN : Nat := 0x2

/-! ### Error message strings (clamav_nif.c lines 6-7) -/

def ENGINE_INVALID_ERROR : String := "Engine resource is invalid or has been freed"

def ENGINE_NOT_INITIALIZED_ERROR : String := "Engine not initialized with database"

/-! ### struct cl_scan_options (clamav.h): five unsigned-int flag fields -/

structure cl_scan_options where
  general : Nat
  parse : Nat
  heuristic : Nat
  mail : Nat
  dev : Nat
deriving DecidableEq, Repr

/-- apply_legacy_flags (clamav_nif.c lines 105-118): each set legacy bit
ors one modern flag into the parse / heuristic field. -/
def apply_legacy_flags (opts : cl_scan_options) (options_mask : Nat) : cl_scan_options :=
  let opts := if options_mask &&& 0x1 ≠ 0 then
    { opts with parse := opts.parse ||| CL_SCAN_PARSE_ARCHIVE } else opts
  let opts := if options_mask &&& 0x2 ≠ 0 then
    { opts with parse := opts.parse ||| CL_SCAN_PARSE_MAIL } else opts
  let opts := if options_mask &&& 0x4 ≠ 0 then
    { opts with parse := opts.parse ||| CL_SCAN_PARSE_OLE2 } else opts
  if options_mask &&& 0x8 ≠ 0 then
    { opts with heuristic := opts.heuristic ||| CL_SCAN_HEURISTIC_BROKEN } else opts

/-- init_scan_options (clamav_nif.c lines 120-133): zero the struct, copy
the recognized general capability bits out of the raw mask, then apply the
legacy-bit translation to the same mask. -/
def init_scan_options (options_mask : Nat) : cl_scan_options :=
  let opts : cl_scan_options := ⟨0, 0, 0, 0, 0⟩
  let general_bits := options_mask &&&
    (CL_SCAN_GENERAL_ALLMATCHES |||
     CL_SCAN_GENERAL_COLLECT_METADATA |||
     CL_SCAN_GENERAL_HEURISTICS |||
     CL_SCAN_GENERAL_HEURISTIC_PRECEDENCE |||
     CL_SCAN_GENERAL_UNPRIVILEGED)
  apply_legacy_flags { opts with general := general_bits } options_mask

/-! ### Engine handle and NIF outcomes -/

/-- Internal state of a native cl_engine.  The wrapper never inspects it;
we track only the signature total that successive cl_load calls accumulate
into the engine. -/
structure cl_engine where
  sigs : Nat
deriving DecidableEq, Repr

/-- engine_handle (clamav_nif.c lines 10-13): a native engine pointer
(`none` models NULL) and the initialized flag (C int used as a boolean). -/
structure engine_handle where
  engine : Option cl_engine
  initialized : Bool
deriving DecidableEq, Repr

/-- The shape of the Erlang term a NIF call returns: badarg exception,
the atom ok, the tuples built at the various return sites, or an
`{error, message}` tuple. -/
inductive ClamTerm where
  | badarg
  | atomOk
  | okClean
  | okVirus (name : String)
  | okCount (n : Nat)
  | err (msg : String)
deriving DecidableEq, Repr

/-- `true` exactly on the error-shaped results (badarg exception or
`{error, message}` tuple). -/
def ClamTerm.isError : ClamTerm → Bool
  | .badarg => true
  | .err _ => true
  | _ => false

/-- One call into the native libclamav library. -/
inductive NativeEvent where
  | loadCall
  | compileCall
  | scanFileCall
  | fmapOpenCall
  | scanMapCall
  | fmapCloseCall
  | engineFreeCall
  | getNumCall
deriving DecidableEq, Repr

/-- Result of one NIF invocation: the returned term, the handle state
after the call, and the trace of native-library calls made. -/
structure NifOutcome where
  result : ClamTerm
  handle : engine_handle
  events : List NativeEvent
deriving DecidableEq, Repr

def make_error (msg : String) : ClamTerm := ClamTerm.err msg

/-- make_clamav_error (clamav_nif.c lines 75-78): the message is produced
by the native library's cl_strerror lookup, passed here as a function. -/
def make_clamav_error (strerror : Int → String) (error_code : Int) : ClamTerm :=
  ClamTerm.err (strerror error_code)

/-- engine_new_nif (clamav_nif.c lines 153-175), success path: a fresh
handle with a live engine and initialized = 0. -/
def engine_new_nif : engine_handle :=
  { engine := some { sigs := 0 }, initialized := false }

/-- engine_free_nif (clamav_nif.c lines 178-193): free the native engine
only when the pointer is non-null, null the pointer, always clear the
initialized flag, always return ok. -/
def engine_free_nif (h : engine_handle) : NifOutcome :=
  let freed : engine_handle × List NativeEvent :=
    if h.engine.isSome then
      ({ h with engine := none }, [NativeEvent.engineFreeCall])
    else (h, [])
  { result := ClamTerm.atomOk,
    handle := { freed.1 with initialized := false },
    events := freed.2 }

/-- engine_destructor (clamav_nif.c lines 30-38): the finalizer path; it
frees and nulls only when the pointer is non-null, otherwise touches
nothing. -/
def engine_destructor (h : engine_handle) : engine_handle × List NativeEvent :=
  if h.engine.isSome then
    ({ engine := none, initialized := false }, [NativeEvent.engineFreeCall])
  else (h, [])

/-- load_database_nif (clamav_nif.c lines 196-227).  `pathArg = none`
models an argv[1] that fails get_c_string (wrong shape or ≥ 1024 bytes);
`db = (ret, added)` models the outcome of the external cl_load call, which
on success adds `added` newly loaded signatures both to the engine and to
the local accumulator `signatures` (initialized to 0 at line 213). -/
def load_database_nif (h : engine_handle) (pathArg : Option String)
    (db : Int × Nat) (strerror : Int → String) : NifOutcome :=
  match h.engine with
  | none => { result := make_error ENGINE_INVALID_ERROR, handle := h, events := [] }
  | some eng =>
    match pathArg with
    | none => { result := ClamTerm.badarg, handle := h, events := [] }
    | some _ =>
      let signatures : Nat := 0
      let ret := db.1
      if ret ≠ CL_SUCCESS then
        { result := make_clamav_error strerror ret, handle := h,
          events := [NativeEvent.loadCall] }
      else
        { result := ClamTerm.okCount (signatures + db.2),
          handle := { engine := some { sigs := eng.sigs + db.2 }, initialized := true },
          events := [NativeEvent.loadCall] }

/-- compile_engine_nif (clamav_nif.c lines 230-254).  `compileRet` models
the return code of the external cl_engine_compile call. -/
def compile_engine_nif (h : engine_handle) (compileRet : Int)
    (strerror : Int → String) : NifOutcome :=
  match h.engine with
  | none => { result := make_error ENGINE_INVALID_ERROR, handle := h, events := [] }
  | some _ =>
    if h.initialized = false then
      { result := make_error ENGINE_NOT_INITIALIZED_ERROR, handle := h, events := [] }
    else if compileRet ≠ CL_SUCCESS then
      { result := make_clamav_error strerror compileRet, handle := h,
        events := [NativeEvent.compileCall] }
    else
      { result := ClamTerm.atomOk, handle := h, events := [NativeEvent.compileCall] }

/-- scan_file_nif (clamav_nif.c lines 257-314).  `pathArg = none` models a
failing get_c_string; `optArg = none` models the 2-arity call (mask stays
0); `scanRet` and `virus_name` model the outcome of the external
cl_scanfile call (`none` models a NULL virus-name pointer). -/
def scan_file_nif (h : engine_handle) (pathArg : Option String) (optArg : Option Nat)
    (scanRet : Int) (virus_name : Option String) (strerror : Int → String) : NifOutcome :=
  match h.engine with
  | none => { result := make_error ENGINE_INVALID_ERROR, handle := h, events := [] }
  | some _ =>
    if h.initialized = false then
      { result := make_error ENGINE_NOT_INITIALIZED_ERROR, handle := h, events := [] }
    else
      match pathArg with
      | none => { result := ClamTerm.badarg, handle := h, events := [] }
      | some _ =>
        let options_mask := optArg.getD 0
        let _scan_opts := init_scan_options options_mask
        let result :=
          if scanRet = CL_CLEAN then ClamTerm.okClean
          else if scanRet = CL_VIRUS then ClamTerm.okVirus (virus_name.getD "")
          else make_clamav_error strerror scanRet
        { result := result, handle := h, events := [NativeEvent.scanFileCall] }

/-- scan_buffer_nif (clamav_nif.c lines 317-384).  `bufArg = none` models
an argv[1] that is not a binary; `fmapOk` models whether the external
cl_fmap_open_memory call returns a non-null map; `scanRet` and
`virus_name` model the outcome of the external cl_scanmap_callback call.
The cl_fmap_close call at line 365 runs before the return-code switch, so
on every path that opened the map. -/
def scan_buffer_nif (h : engine_handle) (bufArg : Option (List Nat)) (optArg : Option Nat)
    (fmapOk : Bool) (scanRet : Int) (virus_name : Option String)
    (strerror : Int → String) : NifOutcome :=
  match h.engine with
  | none => { result := make_error ENGINE_INVALID_ERROR, handle := h, events := [] }
  | some _ =>
    if h.initialized = false then
      { result := make_error ENGINE_NOT_INITIALIZED_ERROR, handle := h, events := [] }
    else
      match bufArg with
      | none => { result := ClamTerm.badarg, handle := h, events := [] }
      | some _ =>
        let options_mask := optArg.getD 0
        let _scan_opts := init_scan_options options_mask
        if fmapOk = false then
          { result := make_error ("Failed to create fmap"), handle := h,
            events := [NativeEvent.fmapOpenCall] }
        else
          let result :=
            if scanRet = CL_CLEAN then ClamTerm.okClean
            else if scanRet = CL_VIRUS then ClamTerm.okVirus (virus_name.getD "")
            else make_clamav_error strerror scanRet
          { result := result, handle := h,
            events := [NativeEvent.fmapOpenCall, NativeEvent.scanMapCall,
              NativeEvent.fmapCloseCall] }

/-- get_database_version_nif (clamav_nif.c lines 395-416).  `version` and
`errCode` model the outcome of the external cl_engine_get_num call. -/
def get_database_version_nif (h : engine_handle) (version : Int) (errCode : Int)
    (strerror : Int → String) : NifOutcome :=
  match h.engine with
  | none => { result := make_error ENGINE_INVALID_ERROR, handle := h, events := [] }
  | some _ =>
    if errCode ≠ CL_SUCCESS then
      { result := make_clamav_error strerror errCode, handle := h,
        events := [NativeEvent.getNumCall] }
    else
      { result := ClamTerm.okCount version.toNat, handle := h,
        events := [NativeEvent.getNumCall] }

/-! ### Helper lemmas about the option-mask bit operations -/

theorem and31_and (m c : Nat) : (m &&& 31) &&& c = m &&& (31 &&& c) := by
  rw [Nat.and_assoc]

theorem and_bit0_of_ne (m : Nat) (h : m &&& 1 ≠ 0) : m &&& 1 = 1 := by
  rw [Nat.and_one_is_mod] at h ⊢
  omega

theorem and_bit1_of_ne (m : Nat) (h : m &&& 2 ≠ 0) : m &&& 2 = 2 := by
  have h2 := Nat.and_two_pow m 1
  norm_num at h2
  rcases Bool.eq_false_or_eq_true (m.testBit 1) with hb | hb <;> simp [hb] at h2 <;> omega

theorem and_bit2_of_ne (m : Nat) (h : m &&& 4 ≠ 0) : m &&& 4 = 4 := by
  have h2 := Nat.and_two_pow m 2
  norm_num at h2
  rcases Bool.eq_false_or_eq_true (m.testBit 2) with hb | hb <;> simp [hb] at h2 <;> omega

theorem and_bit3_of_ne (m : Nat) (h : m &&& 8 ≠ 0) : m &&& 8 = 8 := by
  have h2 := Nat.and_two_pow m 3
  norm_num at h2
  rcases Bool.eq_false_or_eq_true (m.testBit 3) with hb | hb <;> simp [hb] at h2 <;> omega

/-- Normal form of init_scan_options: the struct it builds, field by field. -/
theorem init_scan_options_spec (m : Nat) :
    init_scan_options m =
      { general := m &&& 0x1F,
        parse := ((if m &&& 0x1 ≠ 0 then 0 ||| CL_SCAN_PARSE_ARCHIVE else 0)
          ||| (if m &&& 0x2 ≠ 0 then CL_SCAN_PARSE_MAIL else 0))
          ||| (if m &&& 0x4 ≠ 0 then CL_SCAN_PARSE_OLE2 else 0),
        heuristic := if m &&& 0x8 ≠ 0 then CL_SCAN_HEURISTIC_BROKEN else 0,
        mail := 0,
        dev := 0 } := by
  unfold init_scan_options apply_legacy_flags
  split_ifs <;>
    simp [CL_SCAN_PARSE_ARCHIVE, CL_SCAN_PARSE_MAIL, CL_SCAN_PARSE_OLE2,
      CL_SCAN_HEURISTIC_BROKEN, CL_SCAN_GENERAL_ALLMATCHES,
      CL_SCAN_GENERAL_COLLECT_METADATA, CL_SCAN_GENERAL_HEURISTICS,
      CL_SCAN_GENERAL_HEURISTIC_PRECEDENCE, CL_SCAN_GENERAL_UNPRIVILEGED]

/-- Setting legacy bit 0x1 makes the translated parse field contain
CL_SCAN_PARSE_ARCHIVE. -/
theorem parse_archive_of_bit0 (m : Nat) (h : m &&& 0x1 ≠ 0) :
    (init_scan_options m).parse &&& CL_SCAN_PARSE_ARCHIVE = CL_SCAN_PARSE_ARCHIVE := by
  rw [init_scan_options_spec]
  simp only [CL_SCAN_PARSE_ARCHIVE, CL_SCAN_PARSE_MAIL, CL_SCAN_PARSE_OLE2]
  rw [if_pos h]
  split_ifs <;> decide

/-- Setting legacy bit 0x2 makes the translated parse field contain
CL_SCAN_PARSE_MAIL. -/
theorem parse_mail_of_bit1 (m : Nat) (h : m &&& 0x2 ≠ 0) :
    (init_scan_options m).parse &&& CL_SCAN_PARSE_MAIL = CL_SCAN_PARSE_MAIL := by
  rw [init_scan_options_spec]
  simp only [CL_SCAN_PARSE_ARCHIVE, CL_SCAN_PARSE_MAIL, CL_SCAN_PARSE_OLE2]
  rw [if_pos h]
  split_ifs <;> decide

/-- Setting legacy bit 0x4 makes the translated parse field contain
CL_SCAN_PARSE_OLE2. -/
theorem parse_ole2_of_bit2 (m : Nat) (h : m &&& 0x4 ≠ 0) :
    (init_scan_options m).parse &&& CL_SCAN_PARSE_OLE2 = CL_SCAN_PARSE_OLE2 := by
  rw [init_scan_options_spec]
  simp only [CL_SCAN_PARSE_ARCHIVE, CL_SCAN_PARSE_MAIL, CL_SCAN_PARSE_OLE2]
  rw [if_pos h]
  split_ifs <;> decide

/-- Setting legacy bit 0x8 makes the translated heuristic field contain
CL_SCAN_HEURISTIC_BROKEN. -/
theorem heuristic_broken_of_bit3 (m : Nat) (h : m &&& 0x8 ≠ 0) :
    (init_scan_options m).heuristic &&& CL_SCAN_HEURISTIC_BROKEN = CL_SCAN_HEURISTIC_BROKEN := by
  rw [init_scan_options_spec]
  simp only [CL_SCAN_HEURISTIC_BROKEN]
  rw [if_pos h]
  decide

/-- The translated general field is the raw mask restricted to the five
recognized general capability bits. -/
theorem general_of_mask (m : Nat) : (init_scan_options m).general = m &&& 0x1F := by
  rw [init_scan_options_spec]

/-- Only the low five bits of the mask influence the translation. -/
theorem init_scan_options_low_bits (m : Nat) :
    init_scan_options (m &&& 0x1F) = init_scan_options m := by
  have e31 : (31 : Nat) &&& 31 = 31 := by decide
  have e1 : (31 : Nat) &&& 1 = 1 := by decide
  have e2 : (31 : Nat) &&& 2 = 2 := by decide
  have e4 : (31 : Nat) &&& 4 = 4 := by decide
  have e8 : (31 : Nat) &&& 8 = 8 := by decide
  have h31 : (m &&& 31) &&& 31 = m &&& 31 := by rw [and31_and, e31]
  have h1 : (m &&& 31) &&& 1 = m &&& 1 := by rw [and31_and, e1]
  have h2 : (m &&& 31) &&& 2 = m &&& 2 := by rw [and31_and, e2]
  have h4 : (m &&& 31) &&& 4 = m &&& 4 := by rw [and31_and, e4]
  have h8 : (m &&& 31) &&& 8 = m &&& 8 := by rw [and31_and, e8]
  rw [init_scan_options_spec, init_scan_options_spec]
  simp only [h31, h1, h2, h4, h8]

/-- Claim C6: scan option translation is a pure, total, deterministic
function of the options bitmask: equal masks yield equal ScanOptions;
legacy bit 0x1 always sets parse-archive, 0x2 parse-mail, 0x4 parse-OLE2,
and 0x8 heuristic-broken; bits outside the recognized low five bits are
silently ignored for every input mask. -/
theorem claim_C6 (m m2 : Nat) :
    (m = m2 → init_scan_options m = init_scan_options m2) ∧
    (m &&& 0x1 ≠ 0 →
      (init_scan_options m).parse &&& CL_SCAN_PARSE_ARCHIVE = CL_SCAN_PARSE_ARCHIVE) ∧
    (m &&& 0x2 ≠ 0 →
      (init_scan_options m).parse &&& CL_SCAN_PARSE_MAIL = CL_SCAN_PARSE_MAIL) ∧
    (m &&& 0x4 ≠ 0 →
      (init_scan_options m).parse &&& CL_SCAN_PARSE_OLE2 = CL_SCAN_PARSE_OLE2) ∧
    (m &&& 0x8 ≠ 0 →
      (init_scan_options m).heuristic &&& CL_SCAN_HEURISTIC_BROKEN = CL_SCAN_HEURISTIC_BROKEN) ∧
    init_scan_options (m &&& 0x1F) = init_scan_options m := by
  refine ⟨fun hEq => by rw [hEq], parse_archive_of_bit0 m, parse_mail_of_bit1 m,
    parse_ole2_of_bit2 m, heuristic_broken_of_bit3 m, init_scan_options_low_bits m⟩

/-- Concrete instantiation of claim_C6 at mask 0x2F (all four legacy bits
plus an unrecognized high bit present in the second operand 0x12F). -/
theorem claim_C6_witness :
    init_scan_options 0x2F = init_scan_options 0x2F ∧
    (0x2F &&& 0x1 ≠ 0 ∧
      (init_scan_options 0x2F).parse &&& CL_SCAN_PARSE_ARCHIVE = CL_SCAN_PARSE_ARCHIVE) ∧
    (0x2F &&& 0x2 ≠ 0 ∧
      (init_scan_options 0x2F).parse &&& CL_SCAN_PARSE_MAIL = CL_SCAN_PARSE_MAIL) ∧
    (0x2F &&& 0x4 ≠ 0 ∧
      (init_scan_options 0x2F).parse &&& CL_SCAN_PARSE_OLE2 = CL_SCAN_PARSE_OLE2) ∧
    (0x2F &&& 0x8 ≠ 0 ∧
      (init_scan_options 0x2F).heuristic &&& CL_SCAN_HEURISTIC_BROKEN = CL_SCAN_HEURISTIC_BROKEN) ∧
    init_scan_options (0x2F &&& 0x1F) = init_scan_options 0x2F :=
  ⟨(claim_C6 0x2F 0x2F).1 rfl,
   ⟨by decide, (claim_C6 0x2F 0x2F).2.1 (by decide)⟩,
   ⟨by decide, (claim_C6 0x2F 0x2F).2.2.1 (by decide)⟩,
   ⟨by decide, (claim_C6 0x2F 0x2F).2.2.2.1 (by decide)⟩,
   ⟨by decide, (claim_C6 0x2F 0x2F).2.2.2.2.1 (by decide)⟩,
   (claim_C6 0x2F 0x2F).2.2.2.2.2⟩

/-- Claim C10: each low legacy bit also enables the same-valued general
capability flag, because the general flags are masked from the raw bitmask
before the legacy bits are separately translated: bit 0x1 sets general
all-matches in addition to parse-archive, 0x2 metadata collection in
addition to parse-mail, 0x4 heuristics in addition to parse-OLE2, and 0x8
heuristic-precedence in addition to heuristic-broken. -/
theorem claim_C10 (m : Nat) :
    (m &&& 0x1 ≠ 0 →
      (init_scan_options m).general &&& CL_SCAN_GENERAL_ALLMATCHES = CL_SCAN_GENERAL_ALLMATCHES ∧
      (init_scan_options m).parse &&& CL_SCAN_PARSE_ARCHIVE = CL_SCAN_PARSE_ARCHIVE) ∧
    (m &&& 0x2 ≠ 0 →
      (init_scan_options m).general &&& CL_SCAN_GENERAL_COLLECT_METADATA =
        CL_SCAN_GENERAL_COLLECT_METADATA ∧
      (init_scan_options m).parse &&& CL_SCAN_PARSE_MAIL = CL_SCAN_PARSE_MAIL) ∧
    (m &&& 0x4 ≠ 0 →
      (init_scan_options m).general &&& CL_SCAN_GENERAL_HEURISTICS = CL_SCAN_GENERAL_HEURISTICS ∧
      (init_scan_options m).parse &&& CL_SCAN_PARSE_OLE2 = CL_SCAN_PARSE_OLE2) ∧
    (m &&& 0x8 ≠ 0 →
      (init_scan_options m).general &&& CL_SCAN_GENERAL_HEURISTIC_PRECEDENCE =
        CL_SCAN_GENERAL_HEURISTIC_PRECEDENCE ∧
      (init_scan_options m).heuristic &&& CL_SCAN_HEURISTIC_BROKEN = CL_SCAN_HEURISTIC_BROKEN) := by
  refine ⟨fun h => ⟨?_, parse_archive_of_bit0 m h⟩,
    fun h => ⟨?_, parse_mail_of_bit1 m h⟩,
    fun h => ⟨?_, parse_ole2_of_bit2 m h⟩,
    fun h => ⟨?_, heuristic_broken_of_bit3 m h⟩⟩
  · have e1 : (31 : Nat) &&& 1 = 1 := by decide
    rw [general_of_mask]
    simp only [CL_SCAN_GENERAL_ALLMATCHES]
    rw [and31_and, e1, and_bit0_of_ne m h]
  · have e2 : (31 : Nat) &&& 2 = 2 := by decide
    rw [general_of_mask]
    simp only [CL_SCAN_GENERAL_COLLECT_METADATA]
    rw [and31_and, e2, and_bit1_of_ne m h]
  · have e4 : (31 : Nat) &&& 4 = 4 := by decide
    rw [general_of_mask]
    simp only [CL_SCAN_GENERAL_HEURISTICS]
    rw [and31_and, e4, and_bit2_of_ne m h]
  · have e8 : (31 : Nat) &&& 8 = 8 := by decide
    rw [general_of_mask]
    simp only [CL_SCAN_GENERAL_HEURISTIC_PRECEDENCE]
    rw [and31_and, e8, and_bit3_of_ne m h]

/-- Concrete instantiation of claim_C10 at mask 0xF. -/
theorem claim_C10_witness :
    (0xF &&& 0x1 ≠ 0 ∧
      (init_scan_options 0xF).general &&& CL_SCAN_GENERAL_ALLMATCHES = CL_SCAN_GENERAL_ALLMATCHES ∧
      (init_scan_options 0xF).parse &&& CL_SCAN_PARSE_ARCHIVE = CL_SCAN_PARSE_ARCHIVE) ∧
    (0xF &&& 0x8 ≠ 0 ∧
      (init_scan_options 0xF).general &&& CL_SCAN_GENERAL_HEURISTIC_PRECEDENCE =
        CL_SCAN_GENERAL_HEURISTIC_PRECEDENCE ∧
      (init_scan_options 0xF).heuristic &&& CL_SCAN_HEURISTIC_BROKEN = CL_SCAN_HEURISTIC_BROKEN) :=
  ⟨⟨by decide, (claim_C10 0xF).1 (by decide)⟩,
   ⟨by decide, (claim_C10 0xF).2.2.2 (by decide)⟩⟩

/-- Claim C2: free is idempotent: the first free nulls the pointer (and
releases the native engine exactly when it was live), any subsequent free
— explicit or via the destructor/finalizer path — performs no native
release and still returns success, so the native engine is freed at most
once per handle. -/
theorem claim_C2 (h : engine_handle) :
    (engine_free_nif h).result = ClamTerm.atomOk ∧
    (engine_free_nif h).handle.engine = none ∧
    (h.engine.isSome = true →
      (engine_free_nif h).events = [NativeEvent.engineFreeCall]) ∧
    (engine_free_nif (engine_free_nif h).handle).result = ClamTerm.atomOk ∧
    (engine_free_nif (engine_free_nif h).handle).events = [] ∧
    (engine_destructor (engine_free_nif h).handle).1 = (engine_free_nif h).handle ∧
    (engine_destructor (engine_free_nif h).handle).2 = [] := by
  cases hE : h.engine <;> simp [engine_free_nif, engine_destructor, hE]

/-- Concrete instantiation of claim_C2 at a freshly created handle. -/
theorem claim_C2_witness :
    engine_new_nif.engine.isSome = true ∧
    (engine_free_nif engine_new_nif).events = [NativeEvent.engineFreeCall] ∧
    (engine_free_nif (engine_free_nif engine_new_nif).handle).result = ClamTerm.atomOk ∧
    (engine_free_nif (engine_free_nif engine_new_nif).handle).events = [] :=
  ⟨by decide, (claim_C2 engine_new_nif).2.2.1 (by decide),
   (claim_C2 engine_new_nif).2.2.2.1, (claim_C2 engine_new_nif).2.2.2.2.1⟩

/-- Claim C3: on a freed handle (native pointer null), load_database,
compile, scan_file, scan_buffer and get_database_version all return the
EngineInvalid error, make no native call (empty event trace, hence no
dereference of the native engine), and leave the handle unchanged. -/
theorem claim_C3 (h : engine_handle) (pathArg : Option String) (db : Int × Nat)
    (strerror : Int → String) (compileRet : Int) (optArg : Option Nat)
    (scanRet : Int) (vn : Option String) (bufArg : Option (List Nat)) (fmapOk : Bool)
    (version errCode : Int) (hnull : h.engine = none) :
    load_database_nif h pathArg db strerror =
      { result := make_error ENGINE_INVALID_ERROR, handle := h, events := [] } ∧
    compile_engine_nif h compileRet strerror =
      { result := make_error ENGINE_INVALID_ERROR, handle := h, events := [] } ∧
    scan_file_nif h pathArg optArg scanRet vn strerror =
      { result := make_error ENGINE_INVALID_ERROR, handle := h, events := [] } ∧
    scan_buffer_nif h bufArg optArg fmapOk scanRet vn strerror =
      { result := make_error ENGINE_INVALID_ERROR, handle := h, events := [] } ∧
    get_database_version_nif h version errCode strerror =
      { result := make_error ENGINE_INVALID_ERROR, handle := h, events := [] } := by
  refine ⟨?_, ?_, ?_, ?_, ?_⟩ <;>
    simp [load_database_nif, compile_engine_nif, scan_file_nif, scan_buffer_nif,
      get_database_version_nif, hnull]

/-- Concrete instantiation of claim_C3 at the handle left behind by an
explicit free of a fresh handle. -/
theorem claim_C3_witness :
    (engine_free_nif engine_new_nif).handle.engine = none ∧
    load_database_nif (engine_free_nif engine_new_nif).handle (some ("db.cvd")) (0, 5)
        (fun _ => "native") =
      { result := make_error ENGINE_INVALID_ERROR,
        handle := (engine_free_nif engine_new_nif).handle, events := [] } ∧
    scan_file_nif (engine_free_nif engine_new_nif).handle (some ("f.txt")) none 0 none
        (fun _ => "native") =
      { result := make_error ENGINE_INVALID_ERROR,
        handle := (engine_free_nif engine_new_nif).handle, events := [] } :=
  ⟨by decide,
   (claim_C3 (engine_free_nif engine_new_nif).handle (some ("db.cvd")) (0, 5)
     (fun _ => "native") 0 none 0 none (some ([])) true 0 0 (by decide)).1,
   (claim_C3 (engine_free_nif engine_new_nif).handle (some ("f.txt")) (0, 5)
     (fun _ => "native") 0 none 0 none (some ([])) true 0 0 (by decide)).2.2.1⟩

/-- Claim C4: on a live handle, compile fails with EngineNotInitialized
(without any native call) exactly when the handle is still New
(initialized = false); once initialized, compile forwards to the native
layer and either succeeds or reports the native failure message. -/
theorem claim_C4 (h : engine_handle) (eng : cl_engine) (compileRet : Int)
    (strerror : Int → String) (hlive : h.engine = some eng) :
    ((compile_engine_nif h compileRet strerror).result = make_error ENGINE_NOT_INITIALIZED_ERROR ∧
      (compile_engine_nif h compileRet strerror).events = [] ↔ h.initialized = false) ∧
    (h.initialized = true →
      (compile_engine_nif h compileRet strerror).events = [NativeEvent.compileCall] ∧
      (compileRet = CL_SUCCESS → (compile_engine_nif h compileRet strerror).result = ClamTerm.atomOk) ∧
      (compileRet ≠ CL_SUCCESS →
        (compile_engine_nif h compileRet strerror).result = ClamTerm.err (strerror compileRet))) := by
  cases hinit : h.initialized <;>
    simp [compile_engine_nif, hlive, hinit, make_error, make_clamav_error] <;>
    split_ifs <;> simp_all

/-- Concrete instantiation of claim_C4 on a New live handle and on a
Loaded handle with a failing native compile. -/
theorem claim_C4_witness :
    (engine_new_nif.engine = some { sigs := 0 } ∧
      ((compile_engine_nif engine_new_nif 0 (fun _ => "native")).result =
          make_error ENGINE_NOT_INITIALIZED_ERROR ∧
        (compile_engine_nif engine_new_nif 0 (fun _ => "native")).events = [] ↔
        engine_new_nif.initialized = false)) ∧
    ((load_database_nif engine_new_nif (some ("db.cvd")) (0, 5) (fun _ => "native")).handle.initialized = true ∧
      (compile_engine_nif (load_database_nif engine_new_nif (some ("db.cvd")) (0, 5)
          (fun _ => "native")).handle 0 (fun _ => "native")).result = ClamTerm.atomOk) :=
  ⟨⟨rfl, (claim_C4 engine_new_nif { sigs := 0 } 0 (fun _ => "native") rfl).1⟩,
   ⟨rfl,
    ((claim_C4 (load_database_nif engine_new_nif (some ("db.cvd")) (0, 5)
        (fun _ => "native")).handle { sigs := 5 } 0 (fun _ => "native")
      (by decide)).2 (by decide)).2.1 rfl⟩⟩

/-- Claim C1 counterexample: a handle in state Loaded (obtained by a
successful load_database on a fresh handle, with no compile call) does
not make scan_file fail with EngineNotInitialized — the wrapper checks
only the initialized flag, so the scan proceeds to the native layer. -/
theorem claim_C1_counterexample :
    (load_database_nif engine_new_nif (some ("db.cvd")) (0, 5) (fun _ => "native")).handle.initialized = true ∧
    (load_database_nif engine_new_nif (some ("db.cvd")) (0, 5) (fun _ => "native")).handle.engine.isSome = true ∧
    scan_file_nif (load_database_nif engine_new_nif (some ("db.cvd")) (0, 5)
        (fun _ => "native")).handle (some ("f.txt")) none 0 none (fun _ => "native") =
      { result := ClamTerm.okClean,
        handle := (load_database_nif engine_new_nif (some ("db.cvd")) (0, 5)
          (fun _ => "native")).handle,
        events := [NativeEvent.scanFileCall] } ∧
    ClamTerm.okClean ≠ make_error ENGINE_NOT_INITIALIZED_ERROR ∧
    scan_buffer_nif (load_database_nif engine_new_nif (some ("db.cvd")) (0, 5)
        (fun _ => "native")).handle (some ([0, 1])) none true 0 none (fun _ => "native") =
      { result := ClamTerm.okClean,
        handle := (load_database_nif engine_new_nif (some ("db.cvd")) (0, 5)
          (fun _ => "native")).handle,
        events := [NativeEvent.fmapOpenCall, NativeEvent.scanMapCall,
          NativeEvent.fmapCloseCall] } := by
  refine ⟨rfl, rfl, rfl, by decide, rfl⟩

/-- Claim C1 as amended: for every live handle that is not yet
initialized (state New — no successful load_database yet), scan_file and
scan_buffer fail with EngineNotInitialized and never invoke the native
scan; once a database has been loaded the wrapper no longer raises
EngineNotInitialized, even before any compile. -/
theorem claim_C1_amended (h : engine_handle) (pathArg : Option String) (optArg : Option Nat)
    (scanRet : Int) (vn : Option String) (strerror : Int → String)
    (bufArg : Option (List Nat)) (fmapOk : Bool)
    (hlive : h.engine.isSome = true) (hinit : h.initialized = false) :
    scan_file_nif h pathArg optArg scanRet vn strerror =
      { result := make_error ENGINE_NOT_INITIALIZED_ERROR, handle := h, events := [] } ∧
    scan_buffer_nif h bufArg optArg fmapOk scanRet vn strerror =
      { result := make_error ENGINE_NOT_INITIALIZED_ERROR, handle := h, events := [] } := by
  obtain ⟨eng, heng⟩ := Option.isSome_iff_exists.mp hlive
  constructor <;> simp [scan_file_nif, scan_buffer_nif, heng, hinit]

/-- Concrete instantiation of claim_C1_amended at a fresh handle. -/
theorem claim_C1_amended_witness :
    scan_file_nif engine_new_nif (some ("f.txt")) none 0 none (fun _ => "native") =
      { result := make_error ENGINE_NOT_INITIALIZED_ERROR, handle := engine_new_nif,
        events := [] } ∧
    scan_buffer_nif engine_new_nif (some ([0, 1])) none true 0 none (fun _ => "native") =
      { result := make_error ENGINE_NOT_INITIALIZED_ERROR, handle := engine_new_nif,
        events := [] } :=
  claim_C1_amended engine_new_nif (some ("f.txt")) none 0 none (fun _ => "native")
    (some ([0, 1])) true (by decide) rfl

/-- Claim C5 counterexample: the count returned by load_database is not
cumulative across calls: a first load of 5 signatures followed by a
second load of 3 returns 3, not 8, because the accumulator passed to the
native load is reset to zero on every call. -/
theorem claim_C5_counterexample :
    (load_database_nif engine_new_nif (some ("daily.cvd")) (0, 5) (fun _ => "native")).result =
      ClamTerm.okCount 5 ∧
    (load_database_nif (load_database_nif engine_new_nif (some ("daily.cvd")) (0, 5)
        (fun _ => "native")).handle (some ("main.cvd")) (0, 3) (fun _ => "native")).result =
      ClamTerm.okCount 3 ∧
    ClamTerm.okCount 3 ≠ ClamTerm.okCount (5 + 3) := by
  refine ⟨rfl, rfl, by decide⟩

/-- Claim C5 as amended: for every live handle, a successful
load_database transitions the handle to Loaded (idempotently if it was
already Loaded, since it unconditionally sets the initialized flag), the
native engine accumulates the newly loaded signatures on top of those
already loaded, and the call returns the number of signatures loaded by
that call alone. -/
theorem claim_C5_amended (h : engine_handle) (eng : cl_engine) (path : String) (n : Nat)
    (strerror : Int → String) (hlive : h.engine = some eng) :
    load_database_nif h (some path) (CL_SUCCESS, n) strerror =
      { result := ClamTerm.okCount n,
        handle := { engine := some { sigs := eng.sigs + n }, initialized := true },
        events := [NativeEvent.loadCall] } := by
  simp [load_database_nif, hlive, CL_SUCCESS]

/-- Concrete instantiation of claim_C5_amended: a second load on an
already-Loaded handle holding 5 signatures adds 3 and reports 3. -/
theorem claim_C5_amended_witness :
    load_database_nif { engine := some { sigs := 5 }, initialized := true }
        (some ("main.cvd")) (CL_SUCCESS, 3) (fun _ => "native") =
      { result := ClamTerm.okCount 3,
        handle := { engine := some { sigs := 5 + 3 }, initialized := true },
        events := [NativeEvent.loadCall] } :=
  claim_C5_amended { engine := some { sigs := 5 }, initialized := true }
    { sigs := 5 } "main.cvd" 3 (fun _ => "native") rfl

/-- Claim C7: whenever scan_buffer successfully opens the in-memory fmap
(fmapOk = true and the call reaches the open), the fmap is closed exactly
once before the call returns, on every exit path — for every native scan
return code, including failure codes — and the numbers of open and close
events always agree. -/
theorem claim_C7 (h : engine_handle) (bufArg : Option (List Nat)) (optArg : Option Nat)
    (scanRet : Int) (vn : Option String) (strerror : Int → String) :
    (scan_buffer_nif h bufArg optArg true scanRet vn strerror).events.count
        NativeEvent.fmapCloseCall =
      (scan_buffer_nif h bufArg optArg true scanRet vn strerror).events.count
        NativeEvent.fmapOpenCall ∧
    (NativeEvent.fmapOpenCall ∈ (scan_buffer_nif h bufArg optArg true scanRet vn strerror).events →
      (scan_buffer_nif h bufArg optArg true scanRet vn strerror).events.count
          NativeEvent.fmapCloseCall = 1) := by
  cases hE : h.engine <;> cases hinit : h.initialized <;> cases bufArg <;>
    simp [scan_buffer_nif, hE, hinit, List.count_cons]

/-- Concrete instantiation of claim_C7 on a Loaded handle with a failing
native scan code. -/
theorem claim_C7_witness :
    NativeEvent.fmapOpenCall ∈
      (scan_buffer_nif { engine := some { sigs := 5 }, initialized := true }
        (some ([0, 1])) none true 2 none (fun _ => "native")).events ∧
    (scan_buffer_nif { engine := some { sigs := 5 }, initialized := true }
        (some ([0, 1])) none true 2 none (fun _ => "native")).events.count
      NativeEvent.fmapCloseCall = 1 :=
  ⟨by decide,
   (claim_C7 { engine := some { sigs := 5 }, initialized := true } (some ([0, 1])) none 2 none
     (fun _ => "native")).2 (by decide)⟩

/-- Claim C8: every scan_file / scan_buffer invocation that reaches the
native scan maps the native return code uniformly: CL_CLEAN to the clean
result, CL_VIRUS to a virus result carrying the native-reported name (or
the empty string when the native name pointer is null), and every other
code to an error whose message comes from the native error-string
lookup. -/
theorem claim_C8 (h : engine_handle) (path : String) (buf : List Nat) (optArg : Option Nat)
    (scanRet : Int) (vn : Option String) (strerror : Int → String)
    (hlive : h.engine.isSome = true) (hinit : h.initialized = true) :
    (scan_file_nif h (some path) optArg scanRet vn strerror).events =
      [NativeEvent.scanFileCall] ∧
    (scanRet = CL_CLEAN →
      (scan_file_nif h (some path) optArg scanRet vn strerror).result = ClamTerm.okClean ∧
      (scan_buffer_nif h (some buf) optArg true scanRet vn strerror).result = ClamTerm.okClean) ∧
    (scanRet = CL_VIRUS →
      (scan_file_nif h (some path) optArg scanRet vn strerror).result =
        ClamTerm.okVirus (vn.getD "") ∧
      (scan_buffer_nif h (some buf) optArg true scanRet vn strerror).result =
        ClamTerm.okVirus (vn.getD "") ∧
      (vn = none →
        (scan_file_nif h (some path) optArg scanRet vn strerror).result =
          ClamTerm.okVirus "")) ∧
    (scanRet ≠ CL_CLEAN → scanRet ≠ CL_VIRUS →
      (scan_file_nif h (some path) optArg scanRet vn strerror).result =
        ClamTerm.err (strerror scanRet) ∧
      (scan_buffer_nif h (some buf) optArg true scanRet vn strerror).result =
        ClamTerm.err (strerror scanRet)) := by
  obtain ⟨eng, heng⟩ := Option.isSome_iff_exists.mp hlive
  refine ⟨by simp [scan_file_nif, heng, hinit], ?_, ?_, ?_⟩ <;>
    intro hret <;>
    simp [scan_file_nif, scan_buffer_nif, heng, hinit, hret, make_clamav_error,
      CL_CLEAN, CL_VIRUS]
  · rintro rfl
    rfl
  · intro hret2
    split_ifs <;> simp_all [CL_CLEAN, CL_VIRUS]

/-- Concrete instantiation of claim_C8 on a Loaded handle: a virus code
with a null name pointer yields an empty-string virus name, and code 2
yields the native error string. -/
theorem claim_C8_witness :
    (scan_file_nif { engine := some { sigs := 5 }, initialized := true } (some ("f.txt"))
        none 1 none (fun c => if c = 2 then "Not supported data format" else "x")).result =
      ClamTerm.okVirus "" ∧
    (scan_file_nif { engine := some { sigs := 5 }, initialized := true } (some ("f.txt"))
        none 2 none (fun c => if c = 2 then "Not supported data format" else "x")).result =
      ClamTerm.err "Not supported data format" := by
  have hv := (claim_C8 { engine := some { sigs := 5 }, initialized := true } "f.txt" [0, 1]
    none 1 none (fun c => if c = 2 then "Not supported data format" else "x")
    (by decide) rfl).2.2.1 rfl
  have he := (claim_C8 { engine := some { sigs := 5 }, initialized := true } "f.txt" [0, 1]
    none 2 none (fun c => if c = 2 then "Not supported data format" else "x")
    (by decide) rfl).2.2.2 (by decide) (by decide)
  exact ⟨hv.2.2 rfl, he.1⟩

/-- Claim C9: whenever load_database or compile returns an error-shaped
result (badarg, EngineInvalid, EngineNotInitialized or a native failure
message), the handle — native pointer and initialized flag — is exactly
what it was before the call. -/
theorem claim_C9 (h : engine_handle) (pathArg : Option String) (db : Int × Nat)
    (compileRet : Int) (strerror : Int → String) :
    ((load_database_nif h pathArg db strerror).result.isError = true →
      (load_database_nif h pathArg db strerror).handle = h) ∧
    ((compile_engine_nif h compileRet strerror).result.isError = true →
      (compile_engine_nif h compileRet strerror).handle = h) := by
  constructor
  · cases hE : h.engine <;> cases pathArg <;>
      simp [load_database_nif, hE, ClamTerm.isError, make_error, make_clamav_error] <;>
      split_ifs <;> simp [ClamTerm.isError]
  · cases hE : h.engine <;> cases hinit : h.initialized <;>
      simp [compile_engine_nif, hE, hinit, ClamTerm.isError, make_error, make_clamav_error] <;>
      split_ifs <;> simp [ClamTerm.isError]

/-- Concrete instantiation of claim_C9: a failing native load (code 2)
and a compile on a New handle both leave the handle unchanged. -/
theorem claim_C9_witness :
    (load_database_nif engine_new_nif (some ("db.cvd")) (2, 0) (fun _ => "native")).result.isError =
      true ∧
    (load_database_nif engine_new_nif (some ("db.cvd")) (2, 0) (fun _ => "native")).handle =
      engine_new_nif ∧
    (compile_engine_nif engine_new_nif 0 (fun _ => "native")).result.isError = true ∧
    (compile_engine_nif engine_new_nif 0 (fun _ => "native")).handle = engine_new_nif :=
  ⟨by decide,
   (claim_C9 engine_new_nif (some ("db.cvd")) (2, 0) 0 (fun _ => "native")).1 (by decide),
   by decide,
   (claim_C9 engine_new_nif (some ("db.cvd")) (2, 0) 0 (fun _ => "native")).2 (by decide)⟩

end ExClamav
